import Mathlib

/-!
Shallow embedding of the performance-gated deployment pipeline of this
repository: the load-test gate of `load-test.js`, the `deploy.yml`
workflow's jobs and guards, the traffic generator's trickle loop together
with the Express target service's endpoint delays, and the shell steps
that render the performance reports.  Every definition is translated
directly from the corresponding source lines.
-/

namespace Apm

/-! ## Load-test gate (`load-test.js`, also inlined in `Opgave2.md`)

The script prints the autocannon results and then runs
`if (result.latency.p99 > 500) { console.error(...); process.exit(1); }
process.exit(0);` with a catch handler
`console.error('Load test failed:', err); process.exit(1);`. -/

/-- Outcome of a Gate Decision: the pipeline's pass/fail verdict. -/
inductive GateOutcome
  | pass
  | fail
deriving DecidableEq, Repr

/-- What happened when `runLoadTest()` was invoked: either it completed
with an observed p99 latency, or it crashed (the promise rejected, e.g.
the driver could not run at all), which the `.catch` handler receives. -/
inductive LoadTestEvent
  | completed (p99 : ℚ)
  | crashed
deriving DecidableEq

/-- The process-level result of `load-test.js`: exit code plus the
message printed to stderr via `console.error` (empty when none). -/
structure ExitResult where
  code : Nat
  message : String
deriving DecidableEq, Repr

/-- The p99 threshold hard-coded in `load-test.js`. -/
def p99Threshold : ℚ := 500

/-- Exit behaviour of `load-test.js`, line for line: on completion,
`if (result.latency.p99 > 500)` prints `Performance threshold exceeded!`
and exits 1, otherwise exits 0; the catch handler prints
`Load test failed:` and exits 1. -/
def runLoadTestExit : LoadTestEvent → ExitResult
  | .completed p99 =>
      if p99 > p99Threshold then
        ⟨1, "Performance threshold exceeded!"⟩
      else
        ⟨0, ""⟩
  | .crashed => ⟨1, "Load test failed:"⟩

/-- The Gate Decision outcome of the load-test gate, as the CI
orchestrator observes it: the step passes exactly when the process exits
with code 0. -/
def loadTestGate (p99 : ℚ) : GateOutcome :=
  if (runLoadTestExit (.completed p99)).code = 0 then .pass else .fail

/-! ## Deploy workflow (`deploy.yml` in `Opgave2.md`)

Jobs: `performance-gate` (newrelic-action check with
`continue-on-error: true`, then a `Set performance status` shell step),
`deploy-staging` (`needs: performance-gate`, no `if:`),
`deploy-production` (`needs: [performance-gate, deploy-staging]`,
`if: needs.performance-gate.outputs.performance_status == 'pass'`),
`notify-performance-issue` (`needs: performance-gate`,
`if: needs.performance-gate.outputs.performance_status == 'fail'`).
A job with `needs` and no status function in its `if:` runs exactly when
every needed job succeeded and the `if:` condition holds.  All `run:`
steps in the workflow are `echo`/`if-else-echo` shell commands, which
cannot fail, so a job that runs reaches `ran-ok`. -/

/-- Result of the `Check recent performance metrics` step
(`newrelic/newrelic-action@v1` with `operator: below`): the step
succeeds when the queried metric meets the threshold, and has outcome
`failure` both on a threshold breach and on a query/configuration error.
`continue-on-error: true` keeps either failure from failing the job. -/
inductive CheckResult
  | met
  | breached
  | queryError
deriving DecidableEq, Repr

/-- Whether the check step's outcome is `success`: only when the
threshold was met; a breach and a query/configuration error both give
outcome `failure`. -/
def checkStepSucceeds : CheckResult → Bool
  | .met => true
  | .breached => false
  | .queryError => false

/-- The `Set performance status` step, line for line:
`if [[ "${ steps.performance-check.outcome }" == "success" ]]; then
echo "status=pass" >> $GITHUB_OUTPUT; else echo "status=fail" ... fi`. -/
def performanceStatus (r : CheckResult) : String :=
  if checkStepSucceeds r then "pass" else "fail"

/-- Terminal Stage Outcome of one job in one pipeline run. -/
inductive Outcome
  | skipped
  | ranOk
  | ranFailed
deriving DecidableEq, Repr

/-- Outcome of the `performance-gate` job.  Its first step carries
`continue-on-error: true` and its second is an if/else `echo`, so the
job succeeds for every check result. -/
def performanceGateOutcome (_ : CheckResult) : Outcome := .ranOk

/-- Whether `deploy-staging` runs: `needs: performance-gate` with no
`if:`, so it runs exactly when `performance-gate` succeeded. -/
def deployStagingRuns (r : CheckResult) : Bool :=
  performanceGateOutcome r == .ranOk

/-- Outcome of `deploy-staging`: its `run:` steps are `echo` commands,
so when the job runs it reaches `ran-ok`. -/
def deployStagingOutcome (r : CheckResult) : Outcome :=
  if deployStagingRuns r then .ranOk else .skipped

/-- Whether `deploy-production` runs:
`needs: [performance-gate, deploy-staging]` and
`if: needs.performance-gate.outputs.performance_status == 'pass'`, so it
runs exactly when both needed jobs succeeded and the recorded status is
`pass`. -/
def deployProductionRuns (r : CheckResult) : Bool :=
  performanceGateOutcome r == .ranOk
    && deployStagingOutcome r == .ranOk
    && performanceStatus r == "pass"

/-- Outcome of `deploy-production`. -/
def deployProductionOutcome (r : CheckResult) : Outcome :=
  if deployProductionRuns r then .ranOk else .skipped

/-- Whether `notify-performance-issue` runs: `needs: performance-gate`
and `if: needs.performance-gate.outputs.performance_status == 'fail'`. -/
def notifyPerformanceIssueRuns (r : CheckResult) : Bool :=
  performanceGateOutcome r == .ranOk && performanceStatus r == "fail"

/-- Outcome of `notify-performance-issue`. -/
def notifyPerformanceIssueOutcome (r : CheckResult) : Outcome :=
  if notifyPerformanceIssueRuns r then .ranOk else .skipped

/-- A New Relic deployment marker
(`newrelic/deployment-marker-action@v1`): revision (`github.sha`),
actor (`github.actor`) and the fixed per-environment description. -/
structure DeploymentMarker where
  revision : String
  actor : String
  description : String
deriving DecidableEq, Repr

/-- Per-run context of the workflow: the commit and the actor that
triggered it (`github.sha`, `github.actor`). -/
structure RunContext where
  sha : String
  actor : String

/-- The deployment markers emitted during one run of `deploy.yml`: the
`Mark deployment in New Relic` step of each deploy job runs when its job
runs, with `revision: github.sha`, `user: github.actor` and the fixed
description `Deployed to staging` resp. `Deployed to production`. -/
def emittedMarkers (ctx : RunContext) (r : CheckResult) :
    List DeploymentMarker :=
  (if deployStagingRuns r then
    [⟨ctx.sha, ctx.actor, "Deployed to staging"⟩] else [])
  ++ (if deployProductionRuns r then
    [⟨ctx.sha, ctx.actor, "Deployed to production"⟩] else [])

/-! ## Traffic generator (`generatetraffic.js`) and target service

The generator runs
`for (let i = 0; i < 20; i++) { setTimeout(() => { const endpoint =
endpoints[Math.floor(Math.random() * endpoints.length)]; http.get(...) },
i * 500); }` — twenty dispatches spaced 500 ms apart, each picking a
random endpoint, without awaiting the previous response.  The Express
app in the same file serves `/slow` with `setTimeout(..., 2000)` and the
other endpoints immediately. -/

/-- The endpoint path set of `generatetraffic.js`:
`['/', '/fast', '/slow', '/error']`. -/
def endpoints : List String := ["/", "/fast", "/slow", "/error"]

/-- Number of requests the generator issues (`i < 20`). -/
def trickleRequestCount : Nat := 20

/-- The spacing between dispatches in milliseconds (`i * 500`). -/
def trickleSpacingMs : Nat := 500

/-- Dispatch time of the i-th request: `setTimeout(..., i * 500)`. -/
def dispatchTime (i : Nat) : Nat := i * trickleSpacingMs

/-- Endpoint selection:
`endpoints[Math.floor(Math.random() * endpoints.length)]`, with
`Math.random()` drawing `r` uniformly from `[0, 1)`. -/
def selectEndpoint (r : ℚ) : String :=
  endpoints.getD (⌊r * (endpoints.length : ℚ)⌋).toNat "/"

/-- Server-side response delay of the Express app, in milliseconds:
`/slow` responds inside `setTimeout(..., 2000)`; `/`, `/fast`, `/error`
and the error handler respond immediately. -/
def serverDelayMs : String → Nat
  | "/slow" => 2000
  | _ => 0

/-- Number of requests in flight at time `t`, given the endpoint each of
the twenty dispatches selected: request `i` is dispatched at
`dispatchTime i` and its response arrives after the server delay of its
endpoint, since `http.get` does not block later dispatches. -/
def inFlightAt (e : Nat → String) (t : Nat) : Nat :=
  (List.range trickleRequestCount).countP fun i =>
    decide (dispatchTime i ≤ t) &&
      decide (t < dispatchTime i + serverDelayMs (e i))

/-! ## Report rendering shell steps (`Opgave2.md`)

The `Generate performance report` step of `performance-test.yml` and the
`Generate markdown report` step of `weekly-report.yml` assemble
`performance-report.md` from a sequence of `echo` commands.  Each render
is a function of exactly the values those `echo` lines interpolate: the
`date` output (the clock), the step outputs, and the check outcome. -/

/-- The `Generate performance report` step of `performance-test.yml`,
echo line by echo line: `clock` stands for `$(date)`, `value` for
`steps.apm-check.outputs.value`, and `checkSuccess` for
`steps.apm-check.outcome == "success"`. -/
def renderPerfReport (clock : String) (value : String)
    (checkSuccess : Bool) : String :=
  "# Performance Test Results\n"
    ++ "\n"
    ++ "Run on: " ++ clock ++ "\n"
    ++ "\n"
    ++ "## Response Time\n"
    ++ "Average: " ++ value ++ " ms\n"
    ++ "\n"
    ++ "## Status\n"
    ++ (if checkSuccess then
          "✅ Performance test passed\n"
        else
          "❌ Performance test failed\n")

/-- The `Generate markdown report` step of `weekly-report.yml`, echo
line by echo line: `clock` stands for `$(date)` and `errorRate` for
`steps.error-rate.outputs.value`. -/
def renderWeeklyReport (clock : String) (errorRate : String) : String :=
  "# Weekly Performance Report\n"
    ++ "Generated on " ++ clock ++ "\n"
    ++ "\n"
    ++ "## Summary\n"
    ++ "\n"
    ++ "- Error rate: " ++ errorRate ++ "%\n"
    ++ "\n"
    ++ "## Top 5 Transactions by Response Time\n"
    ++ "\n"
    ++ "| Transaction | Average Duration (ms) |\n"
    ++ "|-------------|----------------------|\n"
    ++ "Parsed performance data would be displayed here in a table format\n"
    ++ "\n"
    ++ "## Recommendations\n"
    ++ "\n"
    ++ "- Review the slowest transactions\n"
    ++ "- Investigate any error rate increases\n"

/-! ## Theorems about the claims -/

/-- Claim C1, counterexample: the load-test gate with threshold 500
evaluated at an observed value of exactly 500 yields outcome pass, not
fail as the claim states (`result.latency.p99 > 500` is false at 500, so
the script exits 0). -/
theorem loadTestGate_at_threshold_passes :
    loadTestGate 500 = GateOutcome.pass := by decide

/-- Claim C1, amended: the load-test gate passes iff the observed value
is less than or equal to the threshold (it fails iff the observed value
strictly exceeds 500); in particular an observed value of exactly 500
passes. -/
theorem loadTestGate_pass_iff_le_threshold (v : ℚ) :
    loadTestGate v = GateOutcome.pass ↔ v ≤ p99Threshold := by
  by_cases h : v > p99Threshold
  · have hn : ¬ v ≤ p99Threshold := not_le.mpr h
    simp [loadTestGate, runLoadTestExit, h, hn]
  · have hle : v ≤ p99Threshold := not_lt.mp h
    simp [loadTestGate, runLoadTestExit, h, hle]

/-- Claim C2: `deploy-production` reaches `ran-ok` exactly when the
recorded performance status is `pass` and `deploy-staging` reached
`ran-ok`; whenever the status is `fail`, `deploy-production` is
skipped. -/
theorem deploy_production_guard (r : CheckResult) :
    (deployProductionOutcome r = Outcome.ranOk ↔
      performanceStatus r = "pass" ∧ deployStagingOutcome r = Outcome.ranOk) ∧
    (performanceStatus r = "fail" → deployProductionOutcome r = Outcome.skipped) := by
  cases r <;> decide

/-- Claim C2, witness: with a breached threshold the status is `fail`
and `deploy-production` is skipped. -/
theorem deploy_production_guard_at_breach :
    performanceStatus CheckResult.breached = "fail" ∧
    deployProductionOutcome CheckResult.breached = Outcome.skipped :=
  ⟨by decide, (deploy_production_guard CheckResult.breached).2 (by decide)⟩

/-- Claim C3: `deploy-staging` runs in every pipeline run — for every
result of the metrics check (threshold met, breached, or query error),
`performance-gate` finishes `ran-ok` (its check step has
`continue-on-error: true`) and `deploy-staging` reaches `ran-ok`,
regardless of the Gate Decision. -/
theorem deploy_staging_unconditional (r : CheckResult) :
    performanceGateOutcome r = Outcome.ranOk ∧
    deployStagingOutcome r = Outcome.ranOk := by
  cases r <;> decide

/-- Claim C4, counterexample: an evaluation fault (the metrics query
errors) is mapped by the `Set performance status` step to the Gate
Decision `fail` — it silently defaults to fail instead of surfacing a
configuration error. -/
theorem eval_fault_defaults_to_fail :
    performanceStatus CheckResult.queryError = "fail" := by decide

/-- Claim C4, amended: an evaluation fault is not distinguished from a
threshold breach — `continue-on-error` absorbs the check step's failure
and the status step maps both to the same `fail` decision, with
identical downstream branching of `deploy-production` and
`notify-performance-issue`. -/
theorem eval_fault_same_as_breach :
    performanceStatus CheckResult.queryError =
      performanceStatus CheckResult.breached ∧
    performanceStatus CheckResult.breached = "fail" ∧
    deployProductionOutcome CheckResult.queryError =
      deployProductionOutcome CheckResult.breached ∧
    notifyPerformanceIssueOutcome CheckResult.queryError =
      notifyPerformanceIssueOutcome CheckResult.breached := by decide

/-- Claim C5: `notify-performance-issue` runs (reaches `ran-ok`) exactly
when the recorded performance status is `fail`. -/
theorem notify_iff_fail (r : CheckResult) :
    notifyPerformanceIssueOutcome r = Outcome.ranOk ↔
      performanceStatus r = "fail" := by
  cases r <;> decide

/-- Claim C6: when the status is `pass` and `deploy-staging` reached
`ran-ok`, the run emits exactly the staging marker followed by the
production marker — one marker per environment, both with the run's
revision and actor, with the two fixed environment descriptions. -/
theorem markers_on_pass (ctx : RunContext) (r : CheckResult)
    (hp : performanceStatus r = "pass")
    (hs : deployStagingOutcome r = Outcome.ranOk) :
    emittedMarkers ctx r =
      [⟨ctx.sha, ctx.actor, "Deployed to staging"⟩,
       ⟨ctx.sha, ctx.actor, "Deployed to production"⟩] ∧
    (emittedMarkers ctx r).countP
      (fun m => m.description == "Deployed to staging") = 1 ∧
    (emittedMarkers ctx r).countP
      (fun m => m.description == "Deployed to production") = 1 := by
  cases r
  · exact ⟨rfl, rfl, rfl⟩
  · exact absurd hp (by decide)
  · exact absurd hp (by decide)

/-- Claim C6, witness: a concrete passing run emits the two markers. -/
theorem markers_on_pass_at_met :
    performanceStatus CheckResult.met = "pass" ∧
    emittedMarkers ⟨"abc123", "octocat"⟩ CheckResult.met =
      [⟨"abc123", "octocat", "Deployed to staging"⟩,
       ⟨"abc123", "octocat", "Deployed to production"⟩] :=
  ⟨rfl,
    (markers_on_pass ⟨"abc123", "octocat"⟩ CheckResult.met rfl rfl).1⟩

/-- Claim C7, counterexample: with the configured endpoint `/slow`
selected (its server delay is 2000 ms), more than one request is in
flight at time 500 ms — the dispatch timer does not wait for the
previous response, so the driver is not single-flight. -/
theorem trickle_not_single_flight :
    "/slow" ∈ endpoints ∧ 1 < inFlightAt (fun _ => "/slow") 500 := by
  decide

/-- Claim C7, amended: dispatches are spaced exactly 500 ms apart and
each dispatch selects endpoint `k` exactly when the uniform draw falls
in `[k/4, (k+1)/4)` — an interval of equal length for each of the four
endpoints — but requests may overlap in flight. -/
theorem trickle_spacing_and_uniform_choice :
    (∀ i : ℕ, dispatchTime (i + 1) = dispatchTime i + trickleSpacingMs) ∧
    (∀ k : ℕ, ∀ r : ℚ, k < endpoints.length →
      (k : ℚ) / 4 ≤ r → r < ((k : ℚ) + 1) / 4 →
      selectEndpoint r = endpoints.getD k "/") := by
  constructor
  · intro i
    simp [dispatchTime, Nat.succ_mul]
  · intro k r hk h1 h2
    have hlen : (endpoints.length : ℚ) = 4 := by norm_num [endpoints]
    have hfloor : ⌊r * (endpoints.length : ℚ)⌋ = (k : ℤ) := by
      rw [hlen, Int.floor_eq_iff]
      constructor
      · push_cast
        linarith
      · push_cast
        linarith
    simp [selectEndpoint, hfloor]

/-- Claim C7, witness: consecutive dispatches are 500 ms apart, and a
draw of 5/8 lands in the third quarter and selects `/slow`. -/
theorem trickle_spacing_and_uniform_choice_at :
    dispatchTime 1 = dispatchTime 0 + trickleSpacingMs ∧
    selectEndpoint (5 / 8) = endpoints.getD 2 "/" :=
  ⟨trickle_spacing_and_uniform_choice.1 0,
    trickle_spacing_and_uniform_choice.2 2 (5 / 8) (by decide)
      (by norm_num) (by norm_num)⟩

/-- Claim C8: each report-rendering step is a function of exactly the
values its echo lines interpolate — the injected clock and the check
step's outputs — so two invocations with identical inputs produce
byte-identical documents, for both the per-run and the weekly report. -/
theorem render_deterministic (c v : String) (o : Bool)
    (c2 v2 : String) (o2 : Bool) (e w e2 w2 : String)
    (hc : c = c2) (hv : v = v2) (ho : o = o2)
    (he : e = e2) (hw : w = w2) :
    renderPerfReport c v o = renderPerfReport c2 v2 o2 ∧
    renderWeeklyReport e w = renderWeeklyReport e2 w2 := by
  subst hc hv ho he hw
  exact ⟨rfl, rfl⟩

/-- Claim C8, witness: a concrete double invocation with equal inputs
yields the same document. -/
theorem render_deterministic_at :
    renderPerfReport "Mon Oct 6" "432" true =
      renderPerfReport "Mon Oct 6" "432" true :=
  (render_deterministic "Mon Oct 6" "432" true "Mon Oct 6" "432" true
    "Mon Oct 6" "1.5" "Mon Oct 6" "1.5" rfl rfl rfl rfl rfl).1

/-- Claim C9, counterexample: a threshold breach (observed 650 over
threshold 500) and a run-level crash of the driver both terminate with
exit code 1 — the caller cannot distinguish them by exit status, and the
breach aborts the step like an error rather than being a non-error
outcome. -/
theorem breach_and_crash_same_exit_code :
    (runLoadTestExit (LoadTestEvent.completed 650)).code = 1 ∧
    (runLoadTestExit LoadTestEvent.crashed).code = 1 := by decide

/-- Claim C9, amended: every threshold breach exits with the same code 1
as a run-level failure, so the two are distinguishable only by the
stderr message, never by exit status; a non-breaching run exits 0. -/
theorem breach_vs_crash (p99 : ℚ) (h : p99Threshold < p99) :
    (runLoadTestExit (LoadTestEvent.completed p99)).code =
      (runLoadTestExit LoadTestEvent.crashed).code ∧
    (runLoadTestExit (LoadTestEvent.completed p99)).message ≠
      (runLoadTestExit LoadTestEvent.crashed).message := by
  have h1 : runLoadTestExit (LoadTestEvent.completed p99) =
      ⟨1, "Performance threshold exceeded!"⟩ :=
    show (if p99 > p99Threshold then
        (⟨1, "Performance threshold exceeded!"⟩ : ExitResult)
      else ⟨0, ""⟩) = ⟨1, "Performance threshold exceeded!"⟩ from if_pos h
  rw [h1]
  exact ⟨rfl, by decide⟩

/-- Claim C9, witness: at observed 650 the breach and the crash exits
share their code. -/
theorem breach_vs_crash_at :
    p99Threshold < (650 : ℚ) ∧
    (runLoadTestExit (LoadTestEvent.completed 650)).code =
      (runLoadTestExit LoadTestEvent.crashed).code :=
  ⟨by norm_num [p99Threshold], (breach_vs_crash 650 (by norm_num [p99Threshold])).1⟩

/-- Claim C10: the `Set performance status` step assigns exactly one of
`pass` or `fail` for every check result, and the two guarded jobs are
mutually exclusive — in every run at least one of `deploy-production`
and `notify-performance-issue` is skipped. -/
theorem status_total_and_guards_exclusive (r : CheckResult) :
    (performanceStatus r = "pass" ∨ performanceStatus r = "fail") ∧
    (deployProductionOutcome r = Outcome.skipped ∨
      notifyPerformanceIssueOutcome r = Outcome.skipped) := by
  cases r <;> decide

end Apm
